import Mathlib

/-!
Verification of the gym-management back end (`gim`): a shallow embedding of
the relational store declared in `src/database/connection.py::init_database`,
the query layer of `src/database/queries.py`, and the HTTP route layer of
`src/routes/api.py`.

Conventions of the embedding:
* each table is a list of rows, in insertion order, inside one `DB` state;
* the `SERIAL` sequences backing `plano.codigo_plano`, `aluno.matricula` and
  `turma.id_turma` are explicit counter fields of the state (`aluno_seq`,
  `turma_seq`); a freshly inserted row gets value `seq + 1`;
* `NUMERIC(10,2)` money and measurement columns are integers (cents /
  hundredths); `DATE` columns are integer day numbers, and `CURRENT_DATE`
  becomes an explicit `today` argument where the source reads the clock;
* a statement that PostgreSQL aborts (trigger exception, unique-key,
  foreign-key or CHECK violation) is an `Except DbError` error; the
  surrounding Python re-raises these, so an error leaves the state unchanged;
* `ON DELETE CASCADE` edges declared in `init_database` are applied inside
  the embedded `DELETE` operations.
-/

/-- Row of table `plano` (`codigo_plano SERIAL PRIMARY KEY`, `nome_plano`,
`preco NUMERIC(10,2) NOT NULL`, `descricao` nullable). -/
structure Plano where
  codigo_plano : Nat
  nome_plano : String
  preco : Int
  descricao : Option String
  deriving Repr, DecidableEq

/-- Row of table `aluno` (`matricula SERIAL PRIMARY KEY`, `cpf UNIQUE`,
`sexo CHECK (sexo IN ('M','F'))`, dates, `codigo_plano` FK to `plano`). -/
structure Aluno where
  matricula : Nat
  cpf : String
  nome : String
  sexo : String
  data_nascimento : Int
  data_matricula : Int
  codigo_plano : Nat
  deriving Repr, DecidableEq

/-- Row of table `contato_aluno` (`telefone PRIMARY KEY`, nullable `email`,
`matricula` FK to `aluno`). -/
structure ContatoAluno where
  telefone : String
  email : Option String
  matricula : Nat
  deriving Repr, DecidableEq

/-- Row of table `bioimpedancia` (`matricula PRIMARY KEY` and FK to `aluno`,
measurements stored as integers in hundredths). -/
structure Bioimpedancia where
  matricula : Nat
  peso : Int
  altura : Int
  tmb : Int
  percentual_gordura : Int
  quantidade_agua : Int
  deriving Repr, DecidableEq

/-- Row of table `instrutor` (`cref INTEGER PRIMARY KEY`, `cpf UNIQUE`,
dates, `turno`). -/
structure Instrutor where
  cref : Nat
  cpf : String
  nome : String
  data_nascimento : Int
  data_admissao : Int
  turno : String
  deriving Repr, DecidableEq

/-- Row of table `contato_instrutor` (`telefone PRIMARY KEY`, nullable
`email`, `cref` FK to `instrutor`). -/
structure ContatoInstrutor where
  telefone : String
  email : Option String
  cref : Nat
  deriving Repr, DecidableEq

/-- Row of table `turma` (`id_turma SERIAL PRIMARY KEY`, `nome_atividade`,
`quantidade_vagas INTEGER CHECK (quantidade_vagas > 0)`, `turno`,
`cref` FK to `instrutor`). -/
structure Turma where
  id_turma : Nat
  nome_atividade : String
  quantidade_vagas : Int
  turno : String
  cref : Nat
  deriving Repr, DecidableEq

/-- Row of the enrollment table `turma_instrutor_aluno`
(`PRIMARY KEY (id_turma, matricula)`, both columns FKs with cascade). -/
structure TurmaInstrutorAluno where
  id_turma : Nat
  matricula : Nat
  deriving Repr, DecidableEq

/-- The relational state: one list per table of the `gim_db` schema, plus the
`SERIAL` sequence counters for `aluno.matricula` and `turma.id_turma`. -/
structure DB where
  plano : List Plano
  aluno : List Aluno
  contato_aluno : List ContatoAluno
  bioimpedancia : List Bioimpedancia
  instrutor : List Instrutor
  contato_instrutor : List ContatoInstrutor
  turma : List Turma
  turma_instrutor_aluno : List TurmaInstrutorAluno
  aluno_seq : Nat
  turma_seq : Nat
  deriving Repr, DecidableEq

/-- Statement-aborting store errors: the trigger exception, the two
exceptions raised inside `create_matricula_turma` itself, and the relational
constraint violations PostgreSQL reports on a mutating statement. -/
inductive DbError where
  | turmaNaoEncontrada
  | semVagas
  | semVagasTrigger
  | uniqueViolation
  | foreignKeyViolation
  | checkViolation
  deriving Repr, DecidableEq

/-- `SELECT ... FROM turma WHERE id_turma = %s` (first matching row). -/
def findTurma (db : DB) (id_turma : Nat) : Option Turma :=
  db.turma.find? (fun t => t.id_turma == id_turma)

/-- `SELECT ... FROM aluno WHERE matricula = %s` (first matching row). -/
def findAluno (db : DB) (matricula : Nat) : Option Aluno :=
  db.aluno.find? (fun a => a.matricula == matricula)

/-- `SELECT ... FROM plano WHERE codigo_plano = %s` (first matching row). -/
def findPlano (db : DB) (codigo_plano : Nat) : Option Plano :=
  db.plano.find? (fun p => p.codigo_plano == codigo_plano)

/-- `SELECT COUNT(*) FROM turma_instrutor_aluno WHERE id_turma = %s`. -/
def enrolledCount (db : DB) (id_turma : Nat) : Nat :=
  (db.turma_instrutor_aluno.filter (fun r => r.id_turma == id_turma)).length

/-- The trigger function `verificar_vagas_turma` of `init_database`: `true`
when the `BEFORE INSERT` trigger lets the row through. When the turma row is
absent the `SELECT INTO` leaves `vagas_disponiveis` NULL and the plpgsql
comparison `alunos_matriculados >= NULL` is not true, so no exception is
raised. -/
def verificar_vagas_turma (db : DB) (id_turma : Nat) : Bool :=
  match findTurma db id_turma with
  | none => true
  | some t => decide ((enrolledCount db id_turma : Int) < t.quantidade_vagas)

/-- `INSERT INTO turma_instrutor_aluno (id_turma, matricula) VALUES (%s, %s)`
with the store-side checks it is subject to: the `trigger_verificar_vagas`
BEFORE-INSERT trigger, then the composite primary key, then the two foreign
keys declared in `init_database`. -/
def insert_turma_instrutor_aluno (db : DB) (id_turma matricula : Nat) :
    Except DbError DB :=
  if verificar_vagas_turma db id_turma = false then
    .error .semVagasTrigger
  else if db.turma_instrutor_aluno.any
      (fun r => r.id_turma == id_turma && r.matricula == matricula) then
    .error .uniqueViolation
  else if !db.turma.any (fun t => t.id_turma == id_turma) then
    .error .foreignKeyViolation
  else if !db.aluno.any (fun a => a.matricula == matricula) then
    .error .foreignKeyViolation
  else
    .ok { db with turma_instrutor_aluno :=
            db.turma_instrutor_aluno ++ [⟨id_turma, matricula⟩] }

/-- `queries.create_matricula_turma`: read capacity and current enrollment
count of the turma; raise `Turma não encontrada` when the turma query is
empty, raise `Turma sem vagas disponíveis` when
`alunos_matriculados >= vagas_totais`, otherwise run the INSERT. -/
def create_matricula_turma (db : DB) (id_turma matricula : Nat) :
    Except DbError DB :=
  match findTurma db id_turma with
  | none => .error .turmaNaoEncontrada
  | some t =>
    if t.quantidade_vagas ≤ (enrolledCount db id_turma : Int) then
      .error .semVagas
    else
      insert_turma_instrutor_aluno db id_turma matricula

/-- `queries.delete_matricula_turma`: unconditional
`DELETE FROM turma_instrutor_aluno WHERE id_turma = %s AND matricula = %s`. -/
def delete_matricula_turma (db : DB) (id_turma matricula : Nat) : DB :=
  { db with
    turma_instrutor_aluno := db.turma_instrutor_aluno.filter
      (fun r => !(r.id_turma == id_turma && r.matricula == matricula)) }

/-- `queries.create_turma`: INSERT into `turma` returning the fresh
`id_turma`; subject to `CHECK (quantidade_vagas > 0)` and the `cref`
foreign key. -/
def create_turma (db : DB) (nome_atividade : String) (quantidade_vagas : Int)
    (turno : String) (cref : Nat) : Except DbError (Nat × DB) :=
  if quantidade_vagas ≤ 0 then
    .error .checkViolation
  else if !db.instrutor.any (fun i => i.cref == cref) then
    .error .foreignKeyViolation
  else
    let id := db.turma_seq + 1
    .ok (id, { db with
      turma := db.turma ++ [⟨id, nome_atividade, quantidade_vagas, turno, cref⟩],
      turma_seq := id })

/-- `queries.update_turma`: a dynamic SET list is built from the non-absent
arguments; when every argument is absent no UPDATE statement is issued at
all. A statement that does run is subject to `CHECK (quantidade_vagas > 0)`
and the `cref` foreign key on each row it modifies. -/
def update_turma (db : DB) (id_turma : Nat) (nome_atividade : Option String)
    (quantidade_vagas : Option Int) (turno : Option String)
    (cref : Option Nat) : Except DbError DB :=
  if nome_atividade.isNone && quantidade_vagas.isNone &&
      turno.isNone && cref.isNone then
    .ok db
  else if db.turma.any (fun t => t.id_turma == id_turma) &&
      (match quantidade_vagas with | some v => v ≤ 0 | none => false) then
    .error .checkViolation
  else if db.turma.any (fun t => t.id_turma == id_turma) &&
      (match cref with
       | some c => !db.instrutor.any (fun i => i.cref == c)
       | none => false) then
    .error .foreignKeyViolation
  else
    .ok { db with turma := db.turma.map (fun t =>
      if t.id_turma == id_turma then
        { t with
          nome_atividade := nome_atividade.getD t.nome_atividade,
          quantidade_vagas := quantidade_vagas.getD t.quantidade_vagas,
          turno := turno.getD t.turno,
          cref := cref.getD t.cref }
      else t) }

/-- `queries.delete_turma`: `DELETE FROM turma WHERE id_turma = %s`; the
`ON DELETE CASCADE` edge of `turma_instrutor_aluno.id_turma` removes the
enrollments of the deleted turma. -/
def delete_turma (db : DB) (id_turma : Nat) : DB :=
  { db with
    turma := db.turma.filter (fun t => !(t.id_turma == id_turma)),
    turma_instrutor_aluno := db.turma_instrutor_aluno.filter
      (fun r => !(r.id_turma == id_turma)) }

/-- `queries.create_aluno`: INSERT into `aluno` returning the fresh
`matricula`; subject to the `cpf` UNIQUE constraint, the
`CHECK (sexo IN ('M','F'))` constraint and the `codigo_plano` foreign key. -/
def create_aluno (db : DB) (cpf nome sexo : String)
    (data_nascimento data_matricula : Int) (codigo_plano : Nat) :
    Except DbError (Nat × DB) :=
  if db.aluno.any (fun a => a.cpf == cpf) then
    .error .uniqueViolation
  else if !(sexo == "M" || sexo == "F") then
    .error .checkViolation
  else if !db.plano.any (fun p => p.codigo_plano == codigo_plano) then
    .error .foreignKeyViolation
  else
    let m := db.aluno_seq + 1
    .ok (m, { db with
      aluno := db.aluno ++
        [⟨m, cpf, nome, sexo, data_nascimento, data_matricula, codigo_plano⟩],
      aluno_seq := m })

/-- `queries.update_aluno`: dynamic SET list over the six optional columns;
with every argument absent no UPDATE is issued. A statement that runs is
subject to the `cpf` UNIQUE constraint (against the other rows), the `sexo`
CHECK and the `codigo_plano` foreign key. -/
def update_aluno (db : DB) (matricula : Nat) (cpf nome sexo : Option String)
    (data_nascimento data_matricula : Option Int)
    (codigo_plano : Option Nat) : Except DbError DB :=
  if cpf.isNone && nome.isNone && sexo.isNone && data_nascimento.isNone &&
      data_matricula.isNone && codigo_plano.isNone then
    .ok db
  else if db.aluno.any (fun a => a.matricula == matricula) &&
      (match cpf with
       | some v => db.aluno.any (fun a => !(a.matricula == matricula) && a.cpf == v)
       | none => false) then
    .error .uniqueViolation
  else if db.aluno.any (fun a => a.matricula == matricula) &&
      (match sexo with
       | some s => !(s == "M" || s == "F")
       | none => false) then
    .error .checkViolation
  else if db.aluno.any (fun a => a.matricula == matricula) &&
      (match codigo_plano with
       | some c => !db.plano.any (fun p => p.codigo_plano == c)
       | none => false) then
    .error .foreignKeyViolation
  else
    .ok { db with aluno := db.aluno.map (fun a =>
      if a.matricula == matricula then
        { a with
          cpf := cpf.getD a.cpf,
          nome := nome.getD a.nome,
          sexo := sexo.getD a.sexo,
          data_nascimento := data_nascimento.getD a.data_nascimento,
          data_matricula := data_matricula.getD a.data_matricula,
          codigo_plano := codigo_plano.getD a.codigo_plano }
      else a) }

/-- `queries.delete_aluno`: `DELETE FROM aluno WHERE matricula = %s`; the
cascade edges of `contato_aluno`, `bioimpedancia` and
`turma_instrutor_aluno` remove the dependent rows of the deleted aluno. -/
def delete_aluno (db : DB) (matricula : Nat) : DB :=
  { db with
    aluno := db.aluno.filter (fun a => !(a.matricula == matricula)),
    contato_aluno := db.contato_aluno.filter
      (fun c => !(c.matricula == matricula)),
    bioimpedancia := db.bioimpedancia.filter
      (fun b => !(b.matricula == matricula)),
    turma_instrutor_aluno := db.turma_instrutor_aluno.filter
      (fun r => !(r.matricula == matricula)) }

/-- `queries.update_plano`: dynamic SET list over the three optional plano
columns; with every argument absent no UPDATE is issued (no table constraint
beyond NOT NULL applies to the columns a caller can set here). -/
def update_plano (db : DB) (codigo_plano : Nat) (nome_plano : Option String)
    (preco : Option Int) (descricao : Option String) : DB :=
  if nome_plano.isNone && preco.isNone && descricao.isNone then db
  else
    { db with
      plano := db.plano.map (fun p =>
        if p.codigo_plano == codigo_plano then
          { p with
            nome_plano := nome_plano.getD p.nome_plano,
            preco := preco.getD p.preco,
            descricao := match descricao with
              | some v => some v
              | none => p.descricao }
        else p) }

/-- `queries.delete_plano`: `DELETE FROM plano WHERE codigo_plano = %s`.
The `aluno.codigo_plano` cascade removes every aluno on the plan, and the
cascades hanging off `aluno` transitively remove those alunos' contato,
bioimpedancia and enrollment rows. -/
def delete_plano (db : DB) (codigo_plano : Nat) : DB :=
  let dead := (db.aluno.filter (fun a => a.codigo_plano == codigo_plano)).map
    (fun a => a.matricula)
  { db with
    plano := db.plano.filter (fun p => !(p.codigo_plano == codigo_plano)),
    aluno := db.aluno.filter (fun a => !(a.codigo_plano == codigo_plano)),
    contato_aluno := db.contato_aluno.filter
      (fun c => !(dead.contains c.matricula)),
    bioimpedancia := db.bioimpedancia.filter
      (fun b => !(dead.contains b.matricula)),
    turma_instrutor_aluno := db.turma_instrutor_aluno.filter
      (fun r => !(dead.contains r.matricula)) }

/-- `queries.delete_instrutor`: `DELETE FROM instrutor WHERE cref = %s`.
The cascades remove the instrutor's contato row and turmas, and the
`turma_instrutor_aluno.id_turma` cascade removes the enrollments of those
turmas. -/
def delete_instrutor (db : DB) (cref : Nat) : DB :=
  let dead := (db.turma.filter (fun t => t.cref == cref)).map
    (fun t => t.id_turma)
  { db with
    instrutor := db.instrutor.filter (fun i => !(i.cref == cref)),
    contato_instrutor := db.contato_instrutor.filter
      (fun c => !(c.cref == cref)),
    turma := db.turma.filter (fun t => !(t.cref == cref)),
    turma_instrutor_aluno := db.turma_instrutor_aluno.filter
      (fun r => !(dead.contains r.id_turma)) }

/-- `queries.delete_bioimpedancia`:
`DELETE FROM bioimpedancia WHERE matricula = %s` (no dependents). -/
def delete_bioimpedancia (db : DB) (matricula : Nat) : DB :=
  { db with
    bioimpedancia := db.bioimpedancia.filter
      (fun b => !(b.matricula == matricula)) }

/-- `queries.update_contato_aluno`: dynamic SET list over `telefone` and
`email`, keyed by `matricula`; with both absent no UPDATE is issued. -/
def update_contato_aluno (db : DB) (matricula : Nat)
    (telefone : Option String) (email : Option String) : DB :=
  if telefone.isNone && email.isNone then db
  else
    { db with
      contato_aluno := db.contato_aluno.map (fun c =>
        if c.matricula == matricula then
          { c with
            telefone := telefone.getD c.telefone,
            email := match email with
              | some v => some v
              | none => c.email }
        else c) }

/-- `queries.update_contato_instrutor`: dynamic SET list over `telefone`
and `email`, keyed by `cref`; with both absent no UPDATE is issued. -/
def update_contato_instrutor (db : DB) (cref : Nat)
    (telefone : Option String) (email : Option String) : DB :=
  if telefone.isNone && email.isNone then db
  else
    { db with
      contato_instrutor := db.contato_instrutor.map (fun c =>
        if c.cref == cref then
          { c with
            telefone := telefone.getD c.telefone,
            email := match email with
              | some v => some v
              | none => c.email }
        else c) }

/-- `queries.update_bioimpedancia`: dynamic SET list over the five optional
measurement columns, keyed by `matricula`; with every argument absent no
UPDATE is issued. -/
def update_bioimpedancia (db : DB) (matricula : Nat) (peso : Option Int)
    (altura : Option Int) (tmb : Option Int)
    (percentual_gordura : Option Int) (quantidade_agua : Option Int) : DB :=
  if peso.isNone && altura.isNone && tmb.isNone &&
      percentual_gordura.isNone && quantidade_agua.isNone then db
  else
    { db with
      bioimpedancia := db.bioimpedancia.map (fun b =>
        if b.matricula == matricula then
          { b with
            peso := peso.getD b.peso,
            altura := altura.getD b.altura,
            tmb := tmb.getD b.tmb,
            percentual_gordura := percentual_gordura.getD b.percentual_gordura,
            quantidade_agua := quantidade_agua.getD b.quantidade_agua }
        else b) }

/-- `queries.update_instrutor`: dynamic SET list over the five optional
instrutor columns, keyed by `cref`; with every argument absent no UPDATE is
issued. -/
def update_instrutor (db : DB) (cref : Nat) (cpf : Option String)
    (nome : Option String) (data_nascimento : Option Int)
    (data_admissao : Option Int) (turno : Option String) : DB :=
  if cpf.isNone && nome.isNone && data_nascimento.isNone &&
      data_admissao.isNone && turno.isNone then db
  else
    { db with
      instrutor := db.instrutor.map (fun i =>
        if i.cref == cref then
          { i with
            cpf := cpf.getD i.cpf,
            nome := nome.getD i.nome,
            data_nascimento := data_nascimento.getD i.data_nascimento,
            data_admissao := data_admissao.getD i.data_admissao,
            turno := turno.getD i.turno }
        else i) }

/-- The plpgsql function `atualizar_plano_aluno` from `init_database`: read
the price of the student's current plan and of the requested plan; when
`preco_novo <= preco_atual` return the policy-violation text without
touching the row; otherwise UPDATE the aluno row, setting `codigo_plano`
and `data_matricula = CURRENT_DATE` (the `today` argument). When either
`SELECT INTO` leaves its variable NULL the comparison is not true and the
function falls through to the UPDATE, whose `codigo_plano` foreign key can
then abort the statement. -/
def atualizar_plano_aluno (db : DB) (today : Int)
    (p_matricula p_novo_plano : Nat) : Except DbError (String × DB) :=
  let preco_atual : Option Int :=
    (findAluno db p_matricula).bind (fun a =>
      (findPlano db a.codigo_plano).map (fun p => p.preco))
  let preco_novo : Option Int :=
    (findPlano db p_novo_plano).map (fun p => p.preco)
  match preco_novo, preco_atual with
  | some pn, some pa =>
    if pn ≤ pa then
      .ok ("Erro: O novo plano deve ser mais caro que o atual!", db)
    else
      .ok ("Plano alterado com sucesso!",
        { db with
          aluno := db.aluno.map (fun a =>
            if a.matricula == p_matricula then
              { a with codigo_plano := p_novo_plano, data_matricula := today }
            else a) })
  | _, _ =>
    if db.aluno.any (fun a => a.matricula == p_matricula) &&
        !db.plano.any (fun p => p.codigo_plano == p_novo_plano) then
      .error .foreignKeyViolation
    else
      .ok ("Plano alterado com sucesso!",
        { db with
          aluno := db.aluno.map (fun a =>
            if a.matricula == p_matricula then
              { a with codigo_plano := p_novo_plano, data_matricula := today }
            else a) })

/-- Insert into a list sorted by the boolean comparison `le` (used to model
the `ORDER BY` clauses of the listing queries). -/
def insertOrd (le : α → α → Bool) (x : α) : List α → List α
  | [] => [x]
  | y :: ys => if le x y then x :: y :: ys else y :: insertOrd le x ys

/-- Insertion sort by the boolean comparison `le`, modelling `ORDER BY`. -/
def orderBy (le : α → α → Bool) : List α → List α
  | [] => []
  | x :: xs => insertOrd le x (orderBy le xs)

/-- `queries.read_plano` with no `codigo_plano` argument:
`SELECT codigo_plano, nome_plano, preco, descricao FROM plano
ORDER BY codigo_plano`. -/
def read_plano (db : DB) : List Plano :=
  orderBy (fun p q => p.codigo_plano ≤ q.codigo_plano) db.plano

/-- One result row of the `read_aluno` listing query: the aluno columns
plus the contato columns supplied by
`LEFT JOIN contato_aluno c ON a.matricula = c.matricula` (both NULL when
the aluno has no contato row). -/
structure AlunoRow where
  aluno : Aluno
  telefone : Option String
  email : Option String
  deriving Repr, DecidableEq

/-- `queries.read_aluno` with no `matricula` argument: every aluno joined
with its contato rows, `ORDER BY a.nome`; an aluno without contato yields a
single row with NULL contato columns, an aluno with matching contato rows
yields one row per match. -/
def read_aluno (db : DB) : List AlunoRow :=
  (orderBy (fun a b => a.nome ≤ b.nome) db.aluno).flatMap (fun a =>
    match db.contato_aluno.filter (fun c => c.matricula == a.matricula) with
    | [] => [⟨a, none, none⟩]
    | cs => cs.map (fun c => ⟨a, some c.telefone, c.email⟩))

/-- The `contato` sub-dictionary built by `helpers.aluno_to_dict`. -/
structure ContatoDict where
  telefone : Option String
  email : Option String
  deriving Repr, DecidableEq

/-- Dictionary produced by `helpers.aluno_to_dict` for one result row. -/
structure AlunoDict where
  matricula : Nat
  cpf : String
  nome : String
  sexo : String
  data_nascimento : Int
  data_matricula : Int
  codigo_plano : Nat
  contato : Option ContatoDict
  deriving Repr, DecidableEq

/-- Python truthiness of a nullable string column: `None` and the empty
string are falsy. -/
def pyTruthy : Option String → Bool
  | none => false
  | some s => !s.isEmpty

/-- `helpers.aluno_to_dict`: the contato sub-dictionary is present exactly
when `row[7] or row[8]` is truthy. -/
def aluno_to_dict (r : AlunoRow) : AlunoDict :=
  { matricula := r.aluno.matricula
    cpf := r.aluno.cpf
    nome := r.aluno.nome
    sexo := r.aluno.sexo
    data_nascimento := r.aluno.data_nascimento
    data_matricula := r.aluno.data_matricula
    codigo_plano := r.aluno.codigo_plano
    contato :=
      if pyTruthy r.telefone || pyTruthy r.email then
        some ⟨r.telefone, r.email⟩
      else none }

/-- Dictionary produced by `helpers.plano_to_dict` for one plano row. -/
structure PlanoDict where
  codigo_plano : Nat
  nome_plano : String
  preco : Int
  descricao : Option String
  deriving Repr, DecidableEq

/-- `helpers.plano_to_dict`. -/
def plano_to_dict (p : Plano) : PlanoDict :=
  { codigo_plano := p.codigo_plano
    nome_plano := p.nome_plano
    preco := p.preco
    descricao := p.descricao }

/-- The Python list slice `xs[skip : skip + limit]` for non-negative `skip`
and `limit`. -/
def pySlice (xs : List α) (skip limit : Nat) : List α :=
  (xs.drop skip).take limit

/-- Route `GET /planos/` (`api.listar_planos`): fetch the full ordered
plano list, convert each row with `plano_to_dict`, and return
`planos[skip : skip + limit]`. -/
def listar_planos (db : DB) (skip limit : Nat) : List PlanoDict :=
  pySlice ((read_plano db).map plano_to_dict) skip limit

/-- Route `GET /alunos/` (`api.listar_alunos`): fetch the full ordered
joined aluno list, convert each row with `aluno_to_dict`, and return
`alunos[skip : skip + limit]`. -/
def listar_alunos (db : DB) (skip limit : Nat) : List AlunoDict :=
  pySlice ((read_aluno db).map aluno_to_dict) skip limit

/-- Body of the `PUT /planos/{codigo_plano}` request (`PlanoUpdate` of
`models/schemas.py`): all three fields optional. -/
structure PlanoUpdate where
  nome_plano : Option String
  preco : Option Int
  descricao : Option String
  deriving Repr, DecidableEq

/-- The `PlanoResponse` model of `models/schemas.py`: `codigo_plano`,
required `nome_plano` and `preco`, nullable `descricao`. -/
structure PlanoResponse where
  codigo_plano : Nat
  nome_plano : String
  preco : Int
  descricao : Option String
  deriving Repr, DecidableEq

/-- Route `PUT /planos/{codigo_plano}` (`api.atualizar_plano`): run
`update_plano` with the payload fields, commit, then build the response
from the path id and the payload alone. Pydantic rejects a `PlanoResponse`
whose required `nome_plano` or `preco` is `None`; the handler's `except`
turns that into an HTTP 400 — after the store write was already committed.
The second component is the HTTP outcome (`Except` error = status 400). -/
def atualizar_plano (db : DB) (codigo_plano : Nat) (plano : PlanoUpdate) :
    DB × Except Nat PlanoResponse :=
  let db' := update_plano db codigo_plano
    plano.nome_plano plano.preco plano.descricao
  match plano.nome_plano, plano.preco with
  | some n, some pr => (db', .ok ⟨codigo_plano, n, pr, plano.descricao⟩)
  | _, _ => (db', .error 400)

/-- Outcome of a DELETE route: the 204 success message it always produces,
plus the not-found outcome the spec expects (no handler ever produces it). -/
inductive RouteResp where
  | noContent (message : String)
  | notFound (detail : String)
  deriving Repr, DecidableEq

/-- Route `DELETE /planos/{codigo_plano}` (`api.deletar_plano`): run the
storage delete, commit, and answer with the fixed success message whether
or not any row matched. -/
def deletar_plano (db : DB) (codigo_plano : Nat) : DB × RouteResp :=
  (delete_plano db codigo_plano, .noContent "Plano deletado com sucesso")

/-- Route `DELETE /alunos/{matricula}` (`api.deletar_aluno`). -/
def deletar_aluno (db : DB) (matricula : Nat) : DB × RouteResp :=
  (delete_aluno db matricula, .noContent "Aluno deletado com sucesso")

/-- Route `DELETE /bioimpedancia/{matricula}`
(`api.deletar_bioimpedancia`). -/
def deletar_bioimpedancia (db : DB) (matricula : Nat) : DB × RouteResp :=
  (delete_bioimpedancia db matricula, .noContent "Medição deletada com sucesso")

/-- Route `DELETE /instrutores/{cref}` (`api.deletar_instrutor`). -/
def deletar_instrutor (db : DB) (cref : Nat) : DB × RouteResp :=
  (delete_instrutor db cref, .noContent "Instrutor deletado com sucesso")

/-- Route `DELETE /turmas/{id_turma}` (`api.deletar_turma`). -/
def deletar_turma (db : DB) (id_turma : Nat) : DB × RouteResp :=
  (delete_turma db id_turma, .noContent "Turma deletada com sucesso")

/-- Unwrap a statement outcome: an aborted statement is rolled back, so on
error the state is the unchanged `db`. -/
def runExcept (db : DB) : Except DbError DB → DB
  | .ok db' => db'
  | .error _ => db

/-- The operations the API exposes over classes, students and enrollment —
the scope named by the capacity-invariant claim: create/update/delete of
turmas and alunos, enroll, unenroll. -/
inductive Op where
  | opCreateTurma (nome_atividade : String) (quantidade_vagas : Int)
      (turno : String) (cref : Nat)
  | opUpdateTurma (id_turma : Nat) (nome_atividade : Option String)
      (quantidade_vagas : Option Int) (turno : Option String)
      (cref : Option Nat)
  | opDeleteTurma (id_turma : Nat)
  | opCreateAluno (cpf nome sexo : String)
      (data_nascimento data_matricula : Int) (codigo_plano : Nat)
  | opUpdateAluno (matricula : Nat) (cpf nome sexo : Option String)
      (data_nascimento data_matricula : Option Int)
      (codigo_plano : Option Nat)
  | opDeleteAluno (matricula : Nat)
  | opEnroll (id_turma matricula : Nat)
  | opUnenroll (id_turma matricula : Nat)
  deriving Repr, DecidableEq

/-- Run one exposed operation; a failed operation leaves the state as it
was (the route layer re-raises, nothing was committed). -/
def Op.run (op : Op) (db : DB) : DB :=
  match op with
  | .opCreateTurma nome vagas turno cref =>
    match create_turma db nome vagas turno cref with
    | .ok r => r.2
    | .error _ => db
  | .opUpdateTurma id nome vagas turno cref =>
    runExcept db (update_turma db id nome vagas turno cref)
  | .opDeleteTurma id => delete_turma db id
  | .opCreateAluno cpf nome sexo dn dm plano =>
    match create_aluno db cpf nome sexo dn dm plano with
    | .ok r => r.2
    | .error _ => db
  | .opUpdateAluno m cpf nome sexo dn dm plano =>
    runExcept db (update_aluno db m cpf nome sexo dn dm plano)
  | .opDeleteAluno m => delete_aluno db m
  | .opEnroll id m => runExcept db (create_matricula_turma db id m)
  | .opUnenroll id m => delete_matricula_turma db id m

/-- Does the operation write the `quantidade_vagas` column? (`True` exactly
for a turma update whose `quantidade_vagas` field is present.) -/
def Op.setsVagas : Op → Bool
  | .opUpdateTurma _ _ (some _) _ _ => true
  | _ => false

/-- Run a whole sequence of exposed operations. -/
def runOps (ops : List Op) (db : DB) : DB :=
  ops.foldl (fun d op => op.run d) db

/-- The capacity invariant: every turma row has at most `quantidade_vagas`
enrollment rows. -/
def capInvB (db : DB) : Bool :=
  db.turma.all (fun t =>
    decide ((enrolledCount db t.id_turma : Int) ≤ t.quantidade_vagas))

/-- Foreign-key integrity of the enrollment table towards `turma`. -/
def matFkTurmaB (db : DB) : Bool :=
  db.turma_instrutor_aluno.all (fun r =>
    db.turma.any (fun t => t.id_turma == r.id_turma))

/-- Every `id_turma` already issued is bounded by the sequence counter, so
`turma_seq + 1` is fresh. -/
def turmaSeqB (db : DB) : Bool :=
  db.turma.all (fun t => t.id_turma ≤ db.turma_seq)

/-- The `turma` primary key: no two rows share an `id_turma`. -/
def turmaPkB (db : DB) : Bool :=
  (db.turma.map (fun t => t.id_turma)).Nodup

/-- The state well-formedness the capacity argument rests on: the capacity
invariant itself together with the structural facts PostgreSQL guarantees
(enrollects reference existing turmas, issued ids are below the sequence
counter, turma ids are unique). -/
def InvB (db : DB) : Bool :=
  capInvB db && matFkTurmaB db && turmaSeqB db && turmaPkB db

/-- Referential integrity of every foreign key declared in
`init_database`: no dependent row references a missing parent. -/
def refIntegrityB (db : DB) : Bool :=
  db.aluno.all (fun a =>
    db.plano.any (fun p => p.codigo_plano == a.codigo_plano)) &&
  db.contato_aluno.all (fun c =>
    db.aluno.any (fun a => a.matricula == c.matricula)) &&
  db.bioimpedancia.all (fun b =>
    db.aluno.any (fun a => a.matricula == b.matricula)) &&
  db.contato_instrutor.all (fun c =>
    db.instrutor.any (fun i => i.cref == c.cref)) &&
  db.turma.all (fun t =>
    db.instrutor.any (fun i => i.cref == t.cref)) &&
  db.turma_instrutor_aluno.all (fun r =>
    db.turma.any (fun t => t.id_turma == r.id_turma) &&
    db.aluno.any (fun a => a.matricula == r.matricula))

/-- `find?` through a keyed patch: patching the rows that satisfy `p` with a
`p`-preserving function commutes with looking the first such row up. -/
theorem find?_map_keyed (p : α → Bool) (f : α → α)
    (hf : ∀ x, p x = true → p (f x) = true) :
    ∀ l : List α,
      (l.map (fun x => if p x then f x else x)).find? p = (l.find? p).map f
  | [] => rfl
  | x :: xs => by
    by_cases h : p x = true
    · simp [List.find?_cons, h, hf x h]
    · simp only [List.map_cons, if_neg h, List.find?_cons, h,
        Bool.false_eq_true, if_false]
      simp only [Bool.not_eq_true] at h
      simp [h, find?_map_keyed p f hf xs]

/-- A list whose elements all fail `k` is untouched by `filter (!k ·)`. -/
theorem filter_not_eq_self (l : List α) (k : α → Bool)
    (h : ∀ x ∈ l, k x = false) :
    l.filter (fun x => !(k x)) = l := by
  induction l with
  | nil => rfl
  | cons x xs ih =>
    have hx := h x (List.mem_cons_self x xs)
    simp [List.filter_cons, hx, ih (fun y hy => h y (List.mem_cons_of_mem x hy))]

/-- A small well-formed state used to instantiate hypotheses concretely:
one plano, one aluno on it, one instrutor, one turma with two seats and no
enrollments. -/
def dbW : DB :=
  { plano := [⟨1, "Basic", 5000, none⟩]
    aluno := [⟨1, "11111111111", "Ana", "F", 100, 200, 1⟩]
    contato_aluno := []
    bioimpedancia := []
    instrutor := [⟨10, "22222222222", "Jo", 0, 0, "Manhã"⟩]
    contato_instrutor := []
    turma := [⟨1, "Musculação", 2, "Manhã", 10⟩]
    turma_instrutor_aluno := []
    aluno_seq := 1
    turma_seq := 1 }

/-- C10: every list endpoint fetches the full ordered result set and
returns the Python slice `[skip, skip+limit)` of it; for non-negative
`skip` and `limit` the response holds at most `limit` entries, and a `skip`
at or beyond the collection size yields an empty list rather than an
error. -/
theorem c10_list_pagination (db : DB) (skip limit : Nat) :
    listar_planos db skip limit =
      pySlice ((read_plano db).map plano_to_dict) skip limit ∧
    listar_alunos db skip limit =
      pySlice ((read_aluno db).map aluno_to_dict) skip limit ∧
    (listar_planos db skip limit).length ≤ limit ∧
    (listar_alunos db skip limit).length ≤ limit ∧
    ((read_plano db).length ≤ skip → listar_planos db skip limit = []) ∧
    ((read_aluno db).length ≤ skip → listar_alunos db skip limit = []) := by
  refine ⟨rfl, rfl, ?_, ?_, ?_, ?_⟩
  · exact List.length_take_le ..
  · exact List.length_take_le ..
  · intro h
    have : ((read_plano db).map plano_to_dict).length ≤ skip := by
      simpa using h
    simp [listar_planos, pySlice, List.drop_eq_nil_of_le this]
  · intro h
    have : ((read_aluno db).map aluno_to_dict).length ≤ skip := by
      simpa using h
    simp [listar_alunos, pySlice, List.drop_eq_nil_of_le this]

/-- Witness for C10 at a concrete state: a skip beyond the single stored
row yields the empty page for both endpoints. -/
theorem c10_witness :
    listar_planos dbW 2 3 = [] ∧ listar_alunos dbW 2 3 = [] :=
  ⟨(c10_list_pagination dbW 2 3).2.2.2.2.1 (by decide),
   (c10_list_pagination dbW 2 3).2.2.2.2.2 (by decide)⟩

/-- C9 counterexample: on `dbW` (whose plano 1 is `Basic` at 5000), a
`PUT /planos/1` payload omitting `nome_plano` does not produce a success
response echoing nulls — the response-model validation fails and the
handler answers HTTP 400, even though the supplied `preco` was already
written and committed. -/
theorem c9_counterexample :
    (atualizar_plano dbW 1 ⟨none, some 9990, none⟩).2 = .error 400 ∧
    (atualizar_plano dbW 1 ⟨none, some 9990, none⟩).1.plano =
      [⟨1, "Basic", 9990, none⟩] :=
  ⟨rfl, rfl⟩

/-- C9 (amended): the plan-update endpoint builds its response from the
request payload and the path id alone, never re-reading the store (the
outcome is identical for any two states); when `nome_plano` and `preco`
are both present the response echoes them with the payload's `descricao`
(even for a `codigo_plano` matching no stored row, since the equation holds
for every state); when either required field is absent the response-model
validation fails and the endpoint answers HTTP 400 instead of echoing
nulls. -/
theorem c9_amended (db : DB) (codigo : Nat) (p : PlanoUpdate) :
    (∀ n pr, p.nome_plano = some n → p.preco = some pr →
      (atualizar_plano db codigo p).2 = .ok ⟨codigo, n, pr, p.descricao⟩) ∧
    (p.nome_plano = none ∨ p.preco = none →
      (atualizar_plano db codigo p).2 = .error 400) ∧
    (∀ db2, (atualizar_plano db codigo p).2 = (atualizar_plano db2 codigo p).2) := by
  obtain ⟨n?, pr?, d?⟩ := p
  cases n? <;> cases pr? <;>
    simp [atualizar_plano]

/-- Witness for C9 at concrete inputs: a full payload is echoed (here for a
path id, 7, that matches no stored plano), and an all-absent payload gets
HTTP 400. -/
theorem c9_witness :
    (atualizar_plano dbW 7 ⟨some "Gold", some 9990, some "d"⟩).2 =
      .ok ⟨7, "Gold", 9990, some "d"⟩ ∧
    (atualizar_plano dbW 1 ⟨none, none, none⟩).2 = .error 400 :=
  ⟨(c9_amended dbW 7 ⟨some "Gold", some 9990, some "d"⟩).1 "Gold" 9990 rfl rfl,
   (c9_amended dbW 1 ⟨none, none, none⟩).2.1 (Or.inl rfl)⟩

/-- Two states with equal tables and counters are equal. -/
theorem DB.ext (a b : DB) (h1 : a.plano = b.plano) (h2 : a.aluno = b.aluno)
    (h3 : a.contato_aluno = b.contato_aluno)
    (h4 : a.bioimpedancia = b.bioimpedancia)
    (h5 : a.instrutor = b.instrutor)
    (h6 : a.contato_instrutor = b.contato_instrutor)
    (h7 : a.turma = b.turma)
    (h8 : a.turma_instrutor_aluno = b.turma_instrutor_aluno)
    (h9 : a.aluno_seq = b.aluno_seq) (h10 : a.turma_seq = b.turma_seq) :
    a = b := by
  cases a; cases b; simp_all

/-- Deleting a plano id no row carries (and no aluno references) changes
nothing. -/
theorem delete_plano_noop (db : DB) (k : Nat)
    (hp : ∀ p ∈ db.plano, (p.codigo_plano == k) = false)
    (ha : ∀ a ∈ db.aluno, (a.codigo_plano == k) = false) :
    delete_plano db k = db := by
  have dead_nil : db.aluno.filter (fun a => a.codigo_plano == k) = [] :=
    List.filter_eq_nil_iff.mpr (by simpa using ha)
  apply DB.ext <;>
    simp [delete_plano, dead_nil, filter_not_eq_self _ _ hp,
      filter_not_eq_self _ _ ha]

/-- Deleting an aluno id no row carries changes nothing. -/
theorem delete_aluno_noop (db : DB) (k : Nat)
    (ha : ∀ a ∈ db.aluno, (a.matricula == k) = false)
    (hc : ∀ c ∈ db.contato_aluno, (c.matricula == k) = false)
    (hb : ∀ b ∈ db.bioimpedancia, (b.matricula == k) = false)
    (hr : ∀ r ∈ db.turma_instrutor_aluno, (r.matricula == k) = false) :
    delete_aluno db k = db := by
  apply DB.ext <;>
    simp [delete_aluno, filter_not_eq_self _ _ ha, filter_not_eq_self _ _ hc,
      filter_not_eq_self _ _ hb, filter_not_eq_self _ _ hr]

/-- Deleting a bioimpedancia id no row carries changes nothing. -/
theorem delete_bioimpedancia_noop (db : DB) (k : Nat)
    (hb : ∀ b ∈ db.bioimpedancia, (b.matricula == k) = false) :
    delete_bioimpedancia db k = db := by
  apply DB.ext <;> simp [delete_bioimpedancia, filter_not_eq_self _ _ hb]

/-- Deleting an instrutor id no row carries (and no turma references)
changes nothing. -/
theorem delete_instrutor_noop (db : DB) (k : Nat)
    (hi : ∀ i ∈ db.instrutor, (i.cref == k) = false)
    (hc : ∀ c ∈ db.contato_instrutor, (c.cref == k) = false)
    (ht : ∀ t ∈ db.turma, (t.cref == k) = false) :
    delete_instrutor db k = db := by
  have dead_nil : db.turma.filter (fun t => t.cref == k) = [] :=
    List.filter_eq_nil_iff.mpr (by simpa using ht)
  apply DB.ext <;>
    simp [delete_instrutor, dead_nil, filter_not_eq_self _ _ hi,
      filter_not_eq_self _ _ hc, filter_not_eq_self _ _ ht]

/-- Deleting a turma id no row carries (and no enrollment references)
changes nothing. -/
theorem delete_turma_noop (db : DB) (k : Nat)
    (ht : ∀ t ∈ db.turma, (t.id_turma == k) = false)
    (hr : ∀ r ∈ db.turma_instrutor_aluno, (r.id_turma == k) = false) :
    delete_turma db k = db := by
  apply DB.ext <;>
    simp [delete_turma, filter_not_eq_self _ _ ht, filter_not_eq_self _ _ hr]

/-- C7 counterexample: deleting plano id 7, which matches no row of `dbW`,
leaves the store untouched (the storage no-op half of the claim holds) but
the route answers with its fixed success message — it never reports a
not-found condition on zero matched rows. -/
theorem c7_counterexample :
    deletar_plano dbW 7 = (dbW, .noContent "Plano deletado com sucesso") := by
  decide

/-- C7 (amended): for every entity type, a delete whose id matches no
stored row is a no-op on the stored state; the calling layer nevertheless
answers with its fixed plain-success message (HTTP 204), never reporting a
not-found condition. (Stated over referentially intact states, where the
absent parent also has no dependents to cascade into.) -/
theorem c7_amended (db : DB) (k : Nat) (h : refIntegrityB db = true) :
    (db.plano.all (fun p => !(p.codigo_plano == k)) = true →
      deletar_plano db k = (db, .noContent "Plano deletado com sucesso")) ∧
    (db.aluno.all (fun a => !(a.matricula == k)) = true →
      deletar_aluno db k = (db, .noContent "Aluno deletado com sucesso")) ∧
    (db.bioimpedancia.all (fun b => !(b.matricula == k)) = true →
      deletar_bioimpedancia db k =
        (db, .noContent "Medição deletada com sucesso")) ∧
    (db.instrutor.all (fun i => !(i.cref == k)) = true →
      deletar_instrutor db k =
        (db, .noContent "Instrutor deletado com sucesso")) ∧
    (db.turma.all (fun t => !(t.id_turma == k)) = true →
      deletar_turma db k = (db, .noContent "Turma deletada com sucesso")) := by
  simp only [refIntegrityB, Bool.and_eq_true, List.all_eq_true,
    List.any_eq_true, beq_iff_eq] at h
  obtain ⟨⟨⟨⟨⟨hA, hCA⟩, hBI⟩, hCI⟩, hTU⟩, hTIA⟩ := h
  refine ⟨?_, ?_, ?_, ?_, ?_⟩
  · intro hk
    have hk2 : ∀ p ∈ db.plano, p.codigo_plano ≠ k := by
      intro p hp
      have := List.all_eq_true.mp hk p hp
      simpa using this
    have ha : ∀ a ∈ db.aluno, (a.codigo_plano == k) = false := by
      intro a haa
      obtain ⟨p, hp, hpe⟩ := hA a haa
      simp only [beq_eq_false_iff_ne]
      exact fun hkk => hk2 p hp (hpe.trans hkk)
    have hp : ∀ p ∈ db.plano, (p.codigo_plano == k) = false := by
      intro p hp2
      simpa using hk2 p hp2
    simp [deletar_plano, delete_plano_noop db k hp ha]
  · intro hk
    have hk2 : ∀ a ∈ db.aluno, a.matricula ≠ k := by
      intro a haa
      have := List.all_eq_true.mp hk a haa
      simpa using this
    have ha : ∀ a ∈ db.aluno, (a.matricula == k) = false := by
      intro a haa
      simpa using hk2 a haa
    have hc : ∀ c ∈ db.contato_aluno, (c.matricula == k) = false := by
      intro c hcc
      obtain ⟨a, haa, hae⟩ := hCA c hcc
      simp only [beq_eq_false_iff_ne]
      exact fun hkk => hk2 a haa (hae.trans hkk)
    have hb : ∀ b ∈ db.bioimpedancia, (b.matricula == k) = false := by
      intro b hbb
      obtain ⟨a, haa, hae⟩ := hBI b hbb
      simp only [beq_eq_false_iff_ne]
      exact fun hkk => hk2 a haa (hae.trans hkk)
    have hr : ∀ r ∈ db.turma_instrutor_aluno, (r.matricula == k) = false := by
      intro r hrr
      obtain ⟨a, haa, hae⟩ := (hTIA r hrr).2
      simp only [beq_eq_false_iff_ne]
      exact fun hkk => hk2 a haa (hae.trans hkk)
    simp [deletar_aluno, delete_aluno_noop db k ha hc hb hr]
  · intro hk
    have hb : ∀ b ∈ db.bioimpedancia, (b.matricula == k) = false := by
      intro b hbb
      have := List.all_eq_true.mp hk b hbb
      simpa using this
    simp [deletar_bioimpedancia, delete_bioimpedancia_noop db k hb]
  · intro hk
    have hk2 : ∀ i ∈ db.instrutor, i.cref ≠ k := by
      intro i hii
      have := List.all_eq_true.mp hk i hii
      simpa using this
    have hi : ∀ i ∈ db.instrutor, (i.cref == k) = false := by
      intro i hii
      simpa using hk2 i hii
    have hc : ∀ c ∈ db.contato_instrutor, (c.cref == k) = false := by
      intro c hcc
      obtain ⟨i, hii, hie⟩ := hCI c hcc
      simp only [beq_eq_false_iff_ne]
      exact fun hkk => hk2 i hii (hie.trans hkk)
    have ht : ∀ t ∈ db.turma, (t.cref == k) = false := by
      intro t htt
      obtain ⟨i, hii, hie⟩ := hTU t htt
      simp only [beq_eq_false_iff_ne]
      exact fun hkk => hk2 i hii (hie.trans hkk)
    simp [deletar_instrutor, delete_instrutor_noop db k hi hc ht]
  · intro hk
    have hk2 : ∀ t ∈ db.turma, t.id_turma ≠ k := by
      intro t htt
      have := List.all_eq_true.mp hk t htt
      simpa using this
    have ht : ∀ t ∈ db.turma, (t.id_turma == k) = false := by
      intro t htt
      simpa using hk2 t htt
    have hr : ∀ r ∈ db.turma_instrutor_aluno, (r.id_turma == k) = false := by
      intro r hrr
      obtain ⟨t, htt, hte⟩ := (hTIA r hrr).1
      simp only [beq_eq_false_iff_ne]
      exact fun hkk => hk2 t htt (hte.trans hkk)
    simp [deletar_turma, delete_turma_noop db k ht hr]

/-- Witness for C7 on `dbW` (referentially intact): deleting absent ids is
a stored-state no-op that still answers plain success, for every entity
type. -/
theorem c7_witness :
    deletar_plano dbW 9 = (dbW, .noContent "Plano deletado com sucesso") ∧
    deletar_aluno dbW 9 = (dbW, .noContent "Aluno deletado com sucesso") ∧
    deletar_bioimpedancia dbW 9 =
      (dbW, .noContent "Medição deletada com sucesso") ∧
    deletar_instrutor dbW 9 =
      (dbW, .noContent "Instrutor deletado com sucesso") ∧
    deletar_turma dbW 9 = (dbW, .noContent "Turma deletada com sucesso") := by
  have h := c7_amended dbW 9 (by decide)
  exact ⟨h.1 (by decide), h.2.1 (by decide), h.2.2.1 (by decide),
    h.2.2.2.1 (by decide), h.2.2.2.2 (by decide)⟩

/-- C8: enrollment never pre-checks student existence — on a class with a
free seat and a `matricula` matching no aluno (and no stray enrollment
row), `create_matricula_turma` passes its class and capacity checks and
fails only at the INSERT itself, with the store's foreign-key violation
(surfaced by the layer above as a generic 400), not with a not-found
precondition signal. -/
theorem c8_enroll_unknown_student (db : DB) (id m : Nat) (t : Turma)
    (ht : findTurma db id = some t)
    (hcap : (enrolledCount db id : Int) < t.quantidade_vagas)
    (hnostud : db.aluno.all (fun a => !(a.matricula == m)) = true)
    (hnopair : db.turma_instrutor_aluno.all
      (fun r => !(r.id_turma == id && r.matricula == m)) = true) :
    create_matricula_turma db id m = .error .foreignKeyViolation := by
  have htrig : verificar_vagas_turma db id = true := by
    simp [verificar_vagas_turma, ht, hcap]
  have ht2 : db.turma.find? (fun x => x.id_turma == id) = some t := ht
  have hturma : db.turma.any (fun x => x.id_turma == id) = true :=
    List.any_eq_true.mpr
      ⟨t, List.mem_of_find?_eq_some ht2,
        List.find?_some (p := fun x : Turma => x.id_turma == id) ht2⟩
  have hstud : db.aluno.any (fun a => a.matricula == m) = false := by
    rw [← Bool.not_eq_true]
    intro hc
    obtain ⟨a, haa, hae⟩ := List.any_eq_true.mp hc
    have := List.all_eq_true.mp hnostud a haa
    simp [hae] at this
  have hpair : db.turma_instrutor_aluno.any
      (fun r => r.id_turma == id && r.matricula == m) = false := by
    rw [← Bool.not_eq_true]
    intro hc
    obtain ⟨r, hrr, hre⟩ := List.any_eq_true.mp hc
    have := List.all_eq_true.mp hnopair r hrr
    simp [hre] at this
  unfold create_matricula_turma
  rw [ht]
  dsimp only
  rw [if_neg (not_le.mpr hcap)]
  simp [insert_turma_instrutor_aluno, htrig, hpair, hturma, hstud]

/-- Witness for C8 on `dbW`: turma 1 has 2 seats and no enrollments, no
aluno 9 exists, and the enroll call fails with the foreign-key violation. -/
theorem c8_witness :
    create_matricula_turma dbW 1 9 = .error .foreignKeyViolation :=
  c8_enroll_unknown_student dbW 1 9 ⟨1, "Musculação", 2, "Manhã", 10⟩
    (by decide) (by decide) (by decide) (by decide)

/-- C3 counterexample: on `dbW`, turma 1 exists with a free seat (0 of 2
taken) and `matricula` 9 names no aluno; the claim's remaining branch
promises a successful insert, but the call fails with the store's
foreign-key violation and inserts nothing. -/
theorem c3_counterexample :
    (findTurma dbW 1).isSome = true ∧
    (enrolledCount dbW 1 : Int) < 2 ∧
    dbW.aluno.all (fun a => !(a.matricula == 9)) = true ∧
    create_matricula_turma dbW 1 9 = .error .foreignKeyViolation :=
  ⟨rfl, by decide, by decide, rfl⟩

/-- C3 (amended): enroll fails with `Turma não encontrada` when the class
is missing and with `Turma sem vagas disponíveis` when the enrollment
count has reached capacity; every failure leaves the state unchanged; and
when the class exists with a free seat, the student exists, and the pair
is not already enrolled, exactly the one row `(classId, studentId)` is
appended and the call succeeds. -/
theorem c3_enroll_amended (db : DB) (id m : Nat) :
    (findTurma db id = none →
      create_matricula_turma db id m = .error .turmaNaoEncontrada) ∧
    (∀ t, findTurma db id = some t →
      t.quantidade_vagas ≤ (enrolledCount db id : Int) →
      create_matricula_turma db id m = .error .semVagas) ∧
    (∀ e, create_matricula_turma db id m = .error e →
      runExcept db (create_matricula_turma db id m) = db) ∧
    (∀ t, findTurma db id = some t →
      (enrolledCount db id : Int) < t.quantidade_vagas →
      db.aluno.any (fun a => a.matricula == m) = true →
      db.turma_instrutor_aluno.all
        (fun r => !(r.id_turma == id && r.matricula == m)) = true →
      create_matricula_turma db id m =
        .ok { db with turma_instrutor_aluno :=
                db.turma_instrutor_aluno ++ [⟨id, m⟩] }) := by
  refine ⟨?_, ?_, ?_, ?_⟩
  · intro h
    unfold create_matricula_turma
    rw [h]
  · intro t ht hge
    unfold create_matricula_turma
    rw [ht]
    dsimp only
    rw [if_pos hge]
  · intro e he
    rw [he]
    rfl
  · intro t ht hlt hstud hnopair
    have htrig : verificar_vagas_turma db id = true := by
      simp [verificar_vagas_turma, ht, hlt]
    have ht2 : db.turma.find? (fun x => x.id_turma == id) = some t := ht
    have hturma : db.turma.any (fun x => x.id_turma == id) = true :=
      List.any_eq_true.mpr
        ⟨t, List.mem_of_find?_eq_some ht2,
          List.find?_some (p := fun x : Turma => x.id_turma == id) ht2⟩
    have hpair : db.turma_instrutor_aluno.any
        (fun r => r.id_turma == id && r.matricula == m) = false := by
      rw [← Bool.not_eq_true]
      intro hc
      obtain ⟨r, hrr, hre⟩ := List.any_eq_true.mp hc
      have := List.all_eq_true.mp hnopair r hrr
      simp [hre] at this
    unfold create_matricula_turma
    rw [ht]
    dsimp only
    rw [if_neg (not_le.mpr hlt)]
    simp [insert_turma_instrutor_aluno, htrig, hpair, hturma, hstud]

/-- Witness for C3 on `dbW`: a missing class is reported as not found, and
a valid enroll of aluno 1 into turma 1 appends exactly that row. -/
theorem c3_witness :
    create_matricula_turma dbW 5 1 = .error .turmaNaoEncontrada ∧
    create_matricula_turma dbW 1 1 =
      .ok { dbW with turma_instrutor_aluno := [⟨1, 1⟩] } :=
  ⟨(c3_enroll_amended dbW 5 1).1 (by decide),
   (c3_enroll_amended dbW 1 1).2.2.2 ⟨1, "Musculação", 2, "Manhã", 10⟩
     (by decide) (by decide) (by decide) (by decide)⟩

/-- `dbW` with a second, more expensive plano, for exercising the
plan-upgrade policy. -/
def dbC2 : DB :=
  { dbW with plano := [⟨1, "Basic", 5000, none⟩, ⟨2, "Gold", 9990, none⟩] }

/-- C2: for an existing student and an existing new plan (and the student's
current plan on file), `atualizar_plano_aluno` succeeds exactly when the
new plan's price is strictly greater than the current plan's: on failure it
returns the policy-violation text with the state untouched; on success it
returns the success text, sets the student's `codigo_plano` to the new plan
and resets `data_matricula` to the current date, and the updated student
row reads back accordingly. -/
theorem c2_changePlan (db : DB) (today : Int) (m novo : Nat)
    (a : Aluno) (pNew pCur : Plano)
    (ha : findAluno db m = some a)
    (hnew : findPlano db novo = some pNew)
    (hcur : findPlano db a.codigo_plano = some pCur) :
    (pNew.preco ≤ pCur.preco →
      atualizar_plano_aluno db today m novo =
        .ok ("Erro: O novo plano deve ser mais caro que o atual!", db)) ∧
    (pCur.preco < pNew.preco →
      atualizar_plano_aluno db today m novo =
        .ok ("Plano alterado com sucesso!",
          { db with aluno := db.aluno.map (fun x =>
              if x.matricula == m then
                { x with codigo_plano := novo, data_matricula := today }
              else x) }) ∧
      findAluno
        { db with aluno := db.aluno.map (fun x =>
            if x.matricula == m then
              { x with codigo_plano := novo, data_matricula := today }
            else x) } m =
        some { a with codigo_plano := novo, data_matricula := today }) := by
  have e1 : ((findAluno db m).bind (fun a2 =>
      (findPlano db a2.codigo_plano).map (fun p => p.preco))) =
      some pCur.preco := by
    rw [ha]
    simp [hcur]
  have e2 : (findPlano db novo).map (fun p => p.preco) = some pNew.preco := by
    rw [hnew]
    rfl
  constructor
  · intro hle
    unfold atualizar_plano_aluno
    rw [e1, e2]
    dsimp only
    rw [if_pos hle]
  · intro hlt
    refine ⟨?_, ?_⟩
    · unfold atualizar_plano_aluno
      rw [e1, e2]
      dsimp only
      rw [if_neg (not_le.mpr hlt)]
    · have ha2 : db.aluno.find? (fun x => x.matricula == m) = some a := ha
      have hk := find?_map_keyed (fun x : Aluno => x.matricula == m)
        (fun x => { x with codigo_plano := novo, data_matricula := today })
        (fun x hx => hx) db.aluno
      show (db.aluno.map (fun x =>
        if x.matricula == m then
          { x with codigo_plano := novo, data_matricula := today }
        else x)).find? (fun x => x.matricula == m) = _
      rw [hk, ha2]
      rfl

/-- Witness for C2 on `dbC2` (aluno 1 on Basic at 5000; Gold costs 9990):
upgrading to Gold succeeds and re-stamps `data_matricula` to the call date
77, while a lateral move to the same-priced Basic is refused with the
state unchanged. -/
theorem c2_witness :
    atualizar_plano_aluno dbC2 77 1 2 =
      .ok ("Plano alterado com sucesso!",
        { dbC2 with aluno := [⟨1, "11111111111", "Ana", "F", 100, 77, 2⟩] }) ∧
    atualizar_plano_aluno dbC2 77 1 1 =
      .ok ("Erro: O novo plano deve ser mais caro que o atual!", dbC2) :=
  ⟨((c2_changePlan dbC2 77 1 2 ⟨1, "11111111111", "Ana", "F", 100, 200, 1⟩
      ⟨2, "Gold", 9990, none⟩ ⟨1, "Basic", 5000, none⟩ rfl rfl rfl).2
      (by decide)).1,
   (c2_changePlan dbC2 77 1 1 ⟨1, "11111111111", "Ana", "F", 100, 200, 1⟩
      ⟨1, "Basic", 5000, none⟩ ⟨1, "Basic", 5000, none⟩ rfl rfl rfl).1
      (by decide)⟩

/-- C5: every partial-update operation writes only the fields supplied as
non-absent: for every combination of present and absent fields, the updated
row carries the supplied value where one was given and its prior stored
value where the field was absent (optional columns are never nulled by an
absent field), and an update with every field absent issues no UPDATE at
all, leaving the state identical — for plano, turma, aluno, contato_aluno,
contato_instrutor, bioimpedancia and instrutor alike. -/
theorem c5_partial_update_frame (db : DB) :
    (∀ c n pr d,
      (update_plano db c n pr d).plano.find? (fun x => x.codigo_plano == c) =
        ((db.plano.find? (fun x => x.codigo_plano == c)).map (fun x =>
          { x with
            nome_plano := n.getD x.nome_plano,
            preco := pr.getD x.preco,
            descricao := match d with
              | some v => some v
              | none => x.descricao }))) ∧
    (∀ c, update_plano db c none none none = db) ∧
    (∀ id n v tu cr db2, update_turma db id n v tu cr = .ok db2 →
      db2.turma.find? (fun x => x.id_turma == id) =
        ((db.turma.find? (fun x => x.id_turma == id)).map (fun x =>
          { x with
            nome_atividade := n.getD x.nome_atividade,
            quantidade_vagas := v.getD x.quantidade_vagas,
            turno := tu.getD x.turno,
            cref := cr.getD x.cref }))) ∧
    (∀ id, update_turma db id none none none none = .ok db) ∧
    (∀ m cpf nm sx dn dm cp db2,
      update_aluno db m cpf nm sx dn dm cp = .ok db2 →
      db2.aluno.find? (fun x => x.matricula == m) =
        ((db.aluno.find? (fun x => x.matricula == m)).map (fun x =>
          { x with
            cpf := cpf.getD x.cpf,
            nome := nm.getD x.nome,
            sexo := sx.getD x.sexo,
            data_nascimento := dn.getD x.data_nascimento,
            data_matricula := dm.getD x.data_matricula,
            codigo_plano := cp.getD x.codigo_plano }))) ∧
    (∀ m, update_aluno db m none none none none none none = .ok db) ∧
    (∀ m tel em,
      (update_contato_aluno db m tel em).contato_aluno.find?
          (fun x => x.matricula == m) =
        ((db.contato_aluno.find? (fun x => x.matricula == m)).map (fun x =>
          { x with
            telefone := tel.getD x.telefone,
            email := match em with
              | some v => some v
              | none => x.email }))) ∧
    (∀ m, update_contato_aluno db m none none = db) ∧
    (∀ cr tel em,
      (update_contato_instrutor db cr tel em).contato_instrutor.find?
          (fun x => x.cref == cr) =
        ((db.contato_instrutor.find? (fun x => x.cref == cr)).map (fun x =>
          { x with
            telefone := tel.getD x.telefone,
            email := match em with
              | some v => some v
              | none => x.email }))) ∧
    (∀ cr, update_contato_instrutor db cr none none = db) ∧
    (∀ m pe al tm pg qa,
      (update_bioimpedancia db m pe al tm pg qa).bioimpedancia.find?
          (fun x => x.matricula == m) =
        ((db.bioimpedancia.find? (fun x => x.matricula == m)).map (fun x =>
          { x with
            peso := pe.getD x.peso,
            altura := al.getD x.altura,
            tmb := tm.getD x.tmb,
            percentual_gordura := pg.getD x.percentual_gordura,
            quantidade_agua := qa.getD x.quantidade_agua }))) ∧
    (∀ m, update_bioimpedancia db m none none none none none = db) ∧
    (∀ cr cpf nm dn da tu,
      (update_instrutor db cr cpf nm dn da tu).instrutor.find?
          (fun x => x.cref == cr) =
        ((db.instrutor.find? (fun x => x.cref == cr)).map (fun x =>
          { x with
            cpf := cpf.getD x.cpf,
            nome := nm.getD x.nome,
            data_nascimento := dn.getD x.data_nascimento,
            data_admissao := da.getD x.data_admissao,
            turno := tu.getD x.turno }))) ∧
    (∀ cr, update_instrutor db cr none none none none none = db) := by
  refine ⟨?_, fun c => rfl, ?_, fun id => rfl, ?_, fun m => rfl,
    ?_, fun m => rfl, ?_, fun cr => rfl, ?_, fun m => rfl, ?_, fun cr => rfl⟩
  · intro c n pr d
    unfold update_plano
    split
    · rename_i hall
      simp only [Bool.and_eq_true, Option.isNone_iff_eq_none] at hall
      obtain ⟨⟨hn, hpr⟩, hd⟩ := hall
      subst hn hpr hd
      cases db.plano.find? (fun x => x.codigo_plano == c) <;> rfl
    · dsimp only
      apply find?_map_keyed
      intro x hx
      exact hx
  · intro id n v tu cr db2 h
    unfold update_turma at h
    split at h
    · rename_i hall
      simp only [Bool.and_eq_true, Option.isNone_iff_eq_none] at hall
      obtain ⟨⟨⟨hn, hv⟩, htu⟩, hcr⟩ := hall
      subst hn hv htu hcr
      cases h
      cases db.turma.find? (fun x => x.id_turma == id) <;> rfl
    · split at h
      · cases h
      · split at h
        · cases h
        · cases h
          exact find?_map_keyed (fun x : Turma => x.id_turma == id)
            (fun x => { x with
              nome_atividade := n.getD x.nome_atividade,
              quantidade_vagas := v.getD x.quantidade_vagas,
              turno := tu.getD x.turno,
              cref := cr.getD x.cref })
            (fun x hx => hx) db.turma
  · intro m cpf nm sx dn dm cp db2 h
    unfold update_aluno at h
    split at h
    · rename_i hall
      simp only [Bool.and_eq_true, Option.isNone_iff_eq_none] at hall
      obtain ⟨⟨⟨⟨⟨hcpf, hnm⟩, hsx⟩, hdn⟩, hdm⟩, hcp⟩ := hall
      subst hcpf hnm hsx hdn hdm hcp
      cases h
      cases db.aluno.find? (fun x => x.matricula == m) <;> rfl
    · split at h
      · cases h
      · split at h
        · cases h
        · split at h
          · cases h
          · cases h
            exact find?_map_keyed (fun x : Aluno => x.matricula == m)
              (fun x => { x with
                cpf := cpf.getD x.cpf,
                nome := nm.getD x.nome,
                sexo := sx.getD x.sexo,
                data_nascimento := dn.getD x.data_nascimento,
                data_matricula := dm.getD x.data_matricula,
                codigo_plano := cp.getD x.codigo_plano })
              (fun x hx => hx) db.aluno
  · intro m tel em
    unfold update_contato_aluno
    split
    · rename_i hall
      simp only [Bool.and_eq_true, Option.isNone_iff_eq_none] at hall
      obtain ⟨htel, hem⟩ := hall
      subst htel hem
      cases db.contato_aluno.find? (fun x => x.matricula == m) <;> rfl
    · dsimp only
      apply find?_map_keyed
      intro x hx
      exact hx
  · intro cr tel em
    unfold update_contato_instrutor
    split
    · rename_i hall
      simp only [Bool.and_eq_true, Option.isNone_iff_eq_none] at hall
      obtain ⟨htel, hem⟩ := hall
      subst htel hem
      cases db.contato_instrutor.find? (fun x => x.cref == cr) <;> rfl
    · dsimp only
      apply find?_map_keyed
      intro x hx
      exact hx
  · intro m pe al tm pg qa
    unfold update_bioimpedancia
    split
    · rename_i hall
      simp only [Bool.and_eq_true, Option.isNone_iff_eq_none] at hall
      obtain ⟨⟨⟨⟨hpe, hal⟩, htm⟩, hpg⟩, hqa⟩ := hall
      subst hpe hal htm hpg hqa
      cases db.bioimpedancia.find? (fun x => x.matricula == m) <;> rfl
    · exact find?_map_keyed (fun x : Bioimpedancia => x.matricula == m)
        (fun x => { x with
          peso := pe.getD x.peso,
          altura := al.getD x.altura,
          tmb := tm.getD x.tmb,
          percentual_gordura := pg.getD x.percentual_gordura,
          quantidade_agua := qa.getD x.quantidade_agua })
        (fun x hx => hx) db.bioimpedancia
  · intro cr cpf nm dn da tu
    unfold update_instrutor
    split
    · rename_i hall
      simp only [Bool.and_eq_true, Option.isNone_iff_eq_none] at hall
      obtain ⟨⟨⟨⟨hcpf, hnm⟩, hdn⟩, hda⟩, htu⟩ := hall
      subst hcpf hnm hdn hda htu
      cases db.instrutor.find? (fun x => x.cref == cr) <;> rfl
    · exact find?_map_keyed (fun x : Instrutor => x.cref == cr)
        (fun x => { x with
          cpf := cpf.getD x.cpf,
          nome := nm.getD x.nome,
          data_nascimento := dn.getD x.data_nascimento,
          data_admissao := da.getD x.data_admissao,
          turno := tu.getD x.turno })
        (fun x hx => hx) db.instrutor

/-- Witness for C5 at concrete inputs on `dbW`: updating only the plano
name writes the name and keeps price and description; updating only the
turma activity name keeps capacity, shift and instructor; an all-absent
bioimpedancia update is the identity. -/
theorem c5_witness :
    (update_plano dbW 1 (some "Plus") none none).plano.find?
        (fun x => x.codigo_plano == 1) = some ⟨1, "Plus", 5000, none⟩ ∧
    update_turma dbW 1 (some "Yoga") none none none =
      .ok { dbW with turma := [⟨1, "Yoga", 2, "Manhã", 10⟩] } ∧
    ({ dbW with turma := [⟨1, "Yoga", 2, "Manhã", 10⟩] } : DB).turma.find?
        (fun x => x.id_turma == 1) = some ⟨1, "Yoga", 2, "Manhã", 10⟩ ∧
    update_bioimpedancia dbW 3 none none none none none = dbW := by
  have h := c5_partial_update_frame dbW
  exact ⟨(h.1 1 (some "Plus") none none).trans (by decide),
    rfl,
    (h.2.2.1 1 (some "Yoga") none none none _ rfl).trans (by decide),
    h.2.2.2.2.2.2.2.2.2.2.2.1 3⟩

/-- The cascading delete of an aluno keeps every foreign key intact. -/
theorem refInt_delete_aluno (db : DB) (k : Nat)
    (h : refIntegrityB db = true) :
    refIntegrityB (delete_aluno db k) = true := by
  simp only [refIntegrityB, delete_aluno, Bool.and_eq_true, List.all_eq_true,
    List.any_eq_true, List.mem_filter, Bool.not_eq_true', beq_iff_eq,
    beq_eq_false_iff_ne] at h ⊢
  obtain ⟨⟨⟨⟨⟨hA, hCA⟩, hBI⟩, hCI⟩, hTU⟩, hTIA⟩ := h
  refine ⟨⟨⟨⟨⟨?_, ?_⟩, ?_⟩, ?_⟩, ?_⟩, ?_⟩
  · intro a ha
    exact hA a ha.1
  · intro c hc
    obtain ⟨a, ha, hae⟩ := hCA c hc.1
    exact ⟨a, ⟨ha, hae ▸ hc.2⟩, hae⟩
  · intro b hb
    obtain ⟨a, ha, hae⟩ := hBI b hb.1
    exact ⟨a, ⟨ha, hae ▸ hb.2⟩, hae⟩
  · intro c hc
    exact hCI c hc
  · intro t ht
    exact hTU t ht
  · intro r hr
    obtain ⟨⟨t, htt, hte⟩, ⟨a, ha, hae⟩⟩ := hTIA r hr.1
    exact ⟨⟨t, htt, hte⟩, ⟨a, ⟨ha, hae ▸ hr.2⟩, hae⟩⟩

/-- The unconditional enrollment delete keeps every foreign key intact. -/
theorem refInt_delete_matricula (db : DB) (idt m : Nat)
    (h : refIntegrityB db = true) :
    refIntegrityB (delete_matricula_turma db idt m) = true := by
  simp only [refIntegrityB, delete_matricula_turma, Bool.and_eq_true,
    List.all_eq_true, List.any_eq_true, List.mem_filter] at h ⊢
  obtain ⟨⟨⟨⟨⟨hA, hCA⟩, hBI⟩, hCI⟩, hTU⟩, hTIA⟩ := h
  exact ⟨⟨⟨⟨⟨hA, hCA⟩, hBI⟩, hCI⟩, hTU⟩, fun r hr => hTIA r hr.1⟩

/-- The cascading delete of a turma keeps every foreign key intact. -/
theorem refInt_delete_turma (db : DB) (k : Nat)
    (h : refIntegrityB db = true) :
    refIntegrityB (delete_turma db k) = true := by
  simp only [refIntegrityB, delete_turma, Bool.and_eq_true, List.all_eq_true,
    List.any_eq_true, List.mem_filter, Bool.not_eq_true', beq_iff_eq,
    beq_eq_false_iff_ne] at h ⊢
  obtain ⟨⟨⟨⟨⟨hA, hCA⟩, hBI⟩, hCI⟩, hTU⟩, hTIA⟩ := h
  refine ⟨⟨⟨⟨⟨hA, hCA⟩, hBI⟩, hCI⟩, fun t ht => hTU t ht.1⟩, ?_⟩
  · intro r hr
    obtain ⟨⟨t, htt, hte⟩, ha⟩ := hTIA r hr.1
    exact ⟨⟨t, ⟨htt, hte ▸ hr.2⟩, hte⟩, ha⟩

/-- The cascading delete of a plano (removing its alunos and their
dependents) keeps every foreign key intact. -/
theorem refInt_delete_plano (db : DB) (k : Nat)
    (h : refIntegrityB db = true) :
    refIntegrityB (delete_plano db k) = true := by
  simp only [refIntegrityB, Bool.and_eq_true, List.all_eq_true,
    List.any_eq_true, beq_iff_eq] at h
  obtain ⟨⟨⟨⟨⟨hA, hCA⟩, hBI⟩, hCI⟩, hTU⟩, hTIA⟩ := h
  simp only [refIntegrityB, delete_plano, Bool.and_eq_true, List.all_eq_true,
    List.any_eq_true, List.mem_filter, List.mem_map, List.elem_iff,
    Bool.not_eq_true', Bool.eq_false_iff, ne_eq, beq_iff_eq,
    beq_eq_false_iff_ne]
  refine ⟨⟨⟨⟨⟨?_, ?_⟩, ?_⟩, ?_⟩, ?_⟩, ?_⟩
  · intro a ha
    obtain ⟨p, hp, hpe⟩ := hA a ha.1
    exact ⟨p, ⟨hp, fun hpk => ha.2 (hpe.symm.trans hpk)⟩, hpe⟩
  · intro c hc
    obtain ⟨a, ha, hae⟩ := hCA c hc.1
    exact ⟨a, ⟨ha, fun hak => hc.2 ⟨a, ⟨ha, hak⟩, hae⟩⟩, hae⟩
  · intro b hb
    obtain ⟨a, ha, hae⟩ := hBI b hb.1
    exact ⟨a, ⟨ha, fun hak => hb.2 ⟨a, ⟨ha, hak⟩, hae⟩⟩, hae⟩
  · intro c hc
    exact hCI c hc
  · intro t ht
    exact hTU t ht
  · intro r hr
    obtain ⟨htu, ⟨a, ha, hae⟩⟩ := hTIA r hr.1
    exact ⟨htu, ⟨a, ⟨ha, fun hak => hr.2 ⟨a, ⟨ha, hak⟩, hae⟩⟩, hae⟩⟩

/-- The cascading delete of an instrutor (removing their contato, turmas
and those turmas' enrollments) keeps every foreign key intact. -/
theorem refInt_delete_instrutor (db : DB) (k : Nat)
    (h : refIntegrityB db = true) :
    refIntegrityB (delete_instrutor db k) = true := by
  simp only [refIntegrityB, Bool.and_eq_true, List.all_eq_true,
    List.any_eq_true, beq_iff_eq] at h
  obtain ⟨⟨⟨⟨⟨hA, hCA⟩, hBI⟩, hCI⟩, hTU⟩, hTIA⟩ := h
  simp only [refIntegrityB, delete_instrutor, Bool.and_eq_true,
    List.all_eq_true, List.any_eq_true, List.mem_filter, List.mem_map,
    List.elem_iff, Bool.not_eq_true', Bool.eq_false_iff, ne_eq, beq_iff_eq,
    beq_eq_false_iff_ne]
  refine ⟨⟨⟨⟨⟨hA, hCA⟩, hBI⟩, ?_⟩, ?_⟩, ?_⟩
  · intro c hc
    obtain ⟨i, hi, hie⟩ := hCI c hc.1
    exact ⟨i, ⟨hi, fun hik => hc.2 (hie.symm.trans hik)⟩, hie⟩
  · intro t ht
    obtain ⟨i, hi, hie⟩ := hTU t ht.1
    exact ⟨i, ⟨hi, fun hik => ht.2 (hie.symm.trans hik)⟩, hie⟩
  · intro r hr
    obtain ⟨⟨t, htt, hte⟩, ha⟩ := hTIA r hr.1
    exact ⟨⟨t, ⟨htt, fun htc => hr.2 ⟨t, ⟨htt, htc⟩, hte⟩⟩, hte⟩, ha⟩

/-- `dbW` enriched with a contato, a bioimpedancia, an instrutor contato
and one enrollment — a referentially intact state with every dependency
edge populated. -/
def dbC6 : DB :=
  { dbW with
    contato_aluno := [⟨"(11)99999-9999", none, 1⟩]
    bioimpedancia := [⟨1, 7000, 175, 1800, 1500, 6000⟩]
    contato_instrutor := [⟨"(11)98888-8888", none, 10⟩]
    turma_instrutor_aluno := [⟨1, 1⟩] }

/-- C6: the deletes cascade exactly along the declared foreign-key edges:
deleting a plano removes every aluno referencing it (and, with referential
integrity preserved, transitively their contato, bioimpedancia and
enrollment rows); deleting an aluno removes their contato, bioimpedancia
and enrollments; deleting an instrutor removes their contato, their turmas
and those turmas' enrollments; deleting a turma removes its enrollments —
and after any of the four deletes no orphan dependent row survives
(referential integrity, `refIntegrityB`, is preserved). -/
theorem c6_cascade_delete (db : DB) (k : Nat) (h : refIntegrityB db = true) :
    refIntegrityB (delete_plano db k) = true ∧
    refIntegrityB (delete_aluno db k) = true ∧
    refIntegrityB (delete_instrutor db k) = true ∧
    refIntegrityB (delete_turma db k) = true ∧
    (delete_plano db k).plano.all (fun p => !(p.codigo_plano == k)) = true ∧
    (delete_plano db k).aluno.all (fun a => !(a.codigo_plano == k)) = true ∧
    (delete_aluno db k).contato_aluno.all
      (fun c => !(c.matricula == k)) = true ∧
    (delete_aluno db k).bioimpedancia.all
      (fun b => !(b.matricula == k)) = true ∧
    (delete_aluno db k).turma_instrutor_aluno.all
      (fun r => !(r.matricula == k)) = true ∧
    (delete_instrutor db k).contato_instrutor.all
      (fun c => !(c.cref == k)) = true ∧
    (delete_instrutor db k).turma.all (fun t => !(t.cref == k)) = true ∧
    (delete_turma db k).turma_instrutor_aluno.all
      (fun r => !(r.id_turma == k)) = true := by
  refine ⟨refInt_delete_plano db k h, refInt_delete_aluno db k h,
    refInt_delete_instrutor db k h, refInt_delete_turma db k h,
    ?_, ?_, ?_, ?_, ?_, ?_, ?_, ?_⟩ <;>
    simp only [delete_plano, delete_aluno, delete_instrutor, delete_turma,
      List.all_eq_true, List.mem_filter] <;>
    exact fun x hx => hx.2

/-- Witness for C6 on `dbC6`: deleting plano 1 cascades away its aluno and
leaves a referentially intact state; deleting instrutor 10 removes their
turmas and stays intact. -/
theorem c6_witness :
    refIntegrityB (delete_plano dbC6 1) = true ∧
    (delete_plano dbC6 1).aluno.all (fun a => !(a.codigo_plano == 1)) = true ∧
    refIntegrityB (delete_instrutor dbC6 10) = true ∧
    (delete_instrutor dbC6 10).turma.all (fun t => !(t.cref == 10)) = true :=
  ⟨(c6_cascade_delete dbC6 1 (by decide)).1,
   (c6_cascade_delete dbC6 1 (by decide)).2.2.2.2.2.1,
   (c6_cascade_delete dbC6 10 (by decide)).2.2.1,
   (c6_cascade_delete dbC6 10 (by decide)).2.2.2.2.2.2.2.2.2.2.1⟩

/-- Prop form of `capInvB`. -/
def CapInv (db : DB) : Prop :=
  ∀ t ∈ db.turma, (enrolledCount db t.id_turma : Int) ≤ t.quantidade_vagas

/-- Prop form of `matFkTurmaB`. -/
def MatFk (db : DB) : Prop :=
  ∀ r ∈ db.turma_instrutor_aluno, ∃ t ∈ db.turma, t.id_turma = r.id_turma

/-- Prop form of `turmaSeqB`. -/
def SeqBound (db : DB) : Prop :=
  ∀ t ∈ db.turma, t.id_turma ≤ db.turma_seq

/-- Prop form of `turmaPkB`. -/
def TurmaPk (db : DB) : Prop :=
  (db.turma.map (fun t => t.id_turma)).Nodup

/-- `InvB` unpacked into its four Prop components. -/
theorem InvB_iff (db : DB) :
    InvB db = true ↔ CapInv db ∧ MatFk db ∧ SeqBound db ∧ TurmaPk db := by
  simp [InvB, capInvB, matFkTurmaB, turmaSeqB, turmaPkB, CapInv, MatFk,
    SeqBound, TurmaPk, Bool.and_eq_true, List.all_eq_true, List.any_eq_true,
    decide_eq_true_eq, beq_iff_eq, and_assoc]

/-- The enrollment count only reads the `turma_instrutor_aluno` table. -/
theorem enrolledCount_proj (db db2 : DB)
    (hR : db2.turma_instrutor_aluno = db.turma_instrutor_aluno) (x : Nat) :
    enrolledCount db2 x = enrolledCount db x := by
  simp [enrolledCount, hR]

/-- Appending one enrollment row bumps the count of its turma by one and
leaves every other count unchanged. -/
theorem enrolledCount_append (db db2 : DB) (id m : Nat)
    (hR : db2.turma_instrutor_aluno =
      db.turma_instrutor_aluno ++ [⟨id, m⟩]) (x : Nat) :
    enrolledCount db2 x = enrolledCount db x + (if id = x then 1 else 0) := by
  by_cases hid : id = x <;>
    simp [enrolledCount, hR, List.filter_append, hid]

/-- Removing enrollment rows can only lower each count. -/
theorem enrolledCount_filter_le (db db2 : DB)
    (q : TurmaInstrutorAluno → Bool)
    (hR : db2.turma_instrutor_aluno = db.turma_instrutor_aluno.filter q)
    (x : Nat) : enrolledCount db2 x ≤ enrolledCount db x := by
  simp only [enrolledCount, hR]
  exact ((List.filter_sublist db.turma_instrutor_aluno :
    (db.turma_instrutor_aluno.filter q).Sublist
      db.turma_instrutor_aluno).filter _).length_le

/-- States agreeing on `turma`, the enrollment table and the turma sequence
have the same `InvB`. -/
theorem InvB_proj (db db2 : DB) (hT : db2.turma = db.turma)
    (hR : db2.turma_instrutor_aluno = db.turma_instrutor_aluno)
    (hS : db2.turma_seq = db.turma_seq) : InvB db2 = InvB db := by
  simp [InvB, capInvB, matFkTurmaB, turmaSeqB, turmaPkB, enrolledCount,
    hT, hR, hS]

/-- Filtering the enrollment table (an unenroll, or the enrollment side of
a cascading aluno delete) preserves the invariant bundle. -/
theorem inv_of_tia_filter (db db2 : DB) (q : TurmaInstrutorAluno → Bool)
    (hT : db2.turma = db.turma)
    (hR : db2.turma_instrutor_aluno = db.turma_instrutor_aluno.filter q)
    (hS : db2.turma_seq = db.turma_seq)
    (h : InvB db = true) : InvB db2 = true := by
  rw [InvB_iff] at h ⊢
  obtain ⟨hCap, hFk, hSeq, hPk⟩ := h
  refine ⟨?_, ?_, ?_, ?_⟩
  · intro t ht
    rw [hT] at ht
    calc (enrolledCount db2 t.id_turma : Int)
        ≤ (enrolledCount db t.id_turma : Int) := by
          exact_mod_cast enrolledCount_filter_le db db2 q hR t.id_turma
      _ ≤ t.quantidade_vagas := hCap t ht
  · intro r hr
    rw [hR] at hr
    obtain ⟨t, ht, hte⟩ := hFk r (List.mem_of_mem_filter hr)
    exact ⟨t, hT ▸ ht, hte⟩
  · intro t ht
    rw [hT] at ht
    rw [hS]
    exact hSeq t ht
  · rw [TurmaPk, hT]
    exact hPk

/-- A successful enrollment insert (the class exists and has a free seat)
preserves the invariant bundle. -/
theorem inv_insert_tia (db : DB) (id m : Nat) (t0 : Turma)
    (heq : findTurma db id = some t0)
    (hlt : (enrolledCount db id : Int) < t0.quantidade_vagas)
    (h : InvB db = true) :
    InvB { db with turma_instrutor_aluno :=
      db.turma_instrutor_aluno ++ [⟨id, m⟩] } = true := by
  rw [InvB_iff] at h ⊢
  obtain ⟨hCap, hFk, hSeq, hPk⟩ := h
  have heq2 : db.turma.find? (fun x => x.id_turma == id) = some t0 := heq
  have ht0mem : t0 ∈ db.turma := List.mem_of_find?_eq_some heq2
  have ht0id : t0.id_turma = id := by
    have := List.find?_some (p := fun x : Turma => x.id_turma == id) heq2
    simpa using this
  refine ⟨?_, ?_, ?_, ?_⟩
  · intro t ht
    have hcnt := enrolledCount_append db
      { db with turma_instrutor_aluno :=
          db.turma_instrutor_aluno ++ [⟨id, m⟩] } id m rfl t.id_turma
    by_cases hid : id = t.id_turma
    · have hteq : t = t0 :=
        List.inj_on_of_nodup_map hPk ht ht0mem (by rw [ht0id, ← hid])
      subst hteq
      rw [hcnt, if_pos hid]
      rw [hid] at hlt
      push_cast at hlt ⊢
      omega
    · rw [hcnt, if_neg hid]
      simpa using hCap t ht
  · intro r hr
    rcases List.mem_append.mp hr with hold | hnew
    · obtain ⟨t, ht, hte⟩ := hFk r hold
      exact ⟨t, ht, hte⟩
    · have : r = ⟨id, m⟩ := by simpa using hnew
      subst this
      exact ⟨t0, ht0mem, ht0id⟩
  · intro t ht
    exact hSeq t ht
  · exact hPk

/-- `opCreateTurma` preserves the invariant bundle: a fresh turma has no
enrollments (its id is new) and a positive capacity. -/
theorem inv_create_turma (db : DB) (n : String) (v : Int) (tu : String)
    (cr : Nat) (h : InvB db = true) :
    InvB (Op.run (.opCreateTurma n v tu cr) db) = true := by
  simp only [Op.run]
  cases hc : create_turma db n v tu cr with
  | error e => exact h
  | ok r =>
    unfold create_turma at hc
    split at hc
    · cases hc
    · split at hc
      · cases hc
      · rename_i hv hcr
        cases hc
        rw [InvB_iff] at h ⊢
        obtain ⟨hCap, hFk, hSeq, hPk⟩ := h
        have hfresh : ∀ x ∈ db.turma, x.id_turma ≠ db.turma_seq + 1 := by
          intro x hx hxe
          have := hSeq x hx
          omega
        refine ⟨?_, ?_, ?_, ?_⟩
        · intro t ht
          rcases List.mem_append.mp ht with hold | hnew
          · simpa [enrolledCount] using hCap t hold
          · have hteq : t = ⟨db.turma_seq + 1, n, v, tu, cr⟩ := by
              simpa using hnew
            subst hteq
            have hz : enrolledCount db (db.turma_seq + 1) = 0 := by
              simp only [enrolledCount]
              rw [List.filter_eq_nil_iff.mpr]
              · rfl
              · intro r hr
                obtain ⟨t2, ht2, ht2e⟩ := hFk r hr
                have := hfresh t2 ht2
                simp only [beq_iff_eq]
                omega
            simp only [enrolledCount] at hz ⊢
            rw [hz]
            omega
        · intro r hr
          obtain ⟨t, ht, hte⟩ := hFk r hr
          exact ⟨t, List.mem_append_left _ ht, hte⟩
        · intro t ht
          rcases List.mem_append.mp ht with hold | hnew
          · exact Nat.le_trans (hSeq t hold) (Nat.le_succ _)
          · have hteq : t = ⟨db.turma_seq + 1, n, v, tu, cr⟩ := by
              simpa using hnew
            subst hteq
            exact Nat.le_refl _
        · simp only [TurmaPk, List.map_append, List.map_cons, List.map_nil]
          rw [List.nodup_append]
          refine ⟨hPk, List.nodup_singleton _, ?_⟩
          intro x hx hx1
          obtain ⟨t, ht, hte⟩ := List.mem_map.mp hx
          have hx2 : x = db.turma_seq + 1 := by simpa using hx1
          exact hfresh t ht (hte.trans hx2)

/-- A turma update whose `quantidade_vagas` field is absent preserves the
invariant bundle: ids and capacities are untouched. -/
theorem inv_update_turma_none (db : DB) (id : Nat) (n : Option String)
    (tu : Option String) (cr : Option Nat) (h : InvB db = true) :
    InvB (Op.run (.opUpdateTurma id n none tu cr) db) = true := by
  simp only [Op.run]
  cases hu : update_turma db id n none tu cr with
  | error e => exact h
  | ok db2 =>
    simp only [runExcept]
    unfold update_turma at hu
    split at hu
    · cases hu
      exact h
    · split at hu
      · cases hu
      · split at hu
        · cases hu
        · cases hu
          rw [InvB_iff] at h ⊢
          obtain ⟨hCap, hFk, hSeq, hPk⟩ := h
          have hproj : ∀ t : Turma,
              ((if t.id_turma == id then
                { t with
                  nome_atividade := n.getD t.nome_atividade,
                  quantidade_vagas := Option.getD none t.quantidade_vagas,
                  turno := tu.getD t.turno,
                  cref := cr.getD t.cref }
                else t) : Turma).id_turma = t.id_turma ∧
              ((if t.id_turma == id then
                { t with
                  nome_atividade := n.getD t.nome_atividade,
                  quantidade_vagas := Option.getD none t.quantidade_vagas,
                  turno := tu.getD t.turno,
                  cref := cr.getD t.cref }
                else t) : Turma).quantidade_vagas = t.quantidade_vagas := by
            intro t
            by_cases hb : (t.id_turma == id) = true <;> simp [hb]
          refine ⟨?_, ?_, ?_, ?_⟩
          · intro t2 ht2
            obtain ⟨t, ht, hte⟩ := List.mem_map.mp ht2
            rw [← hte]
            rw [(hproj t).1, (hproj t).2]
            simpa [enrolledCount] using hCap t ht
          · intro r hr
            obtain ⟨t, ht, hte⟩ := hFk r hr
            refine ⟨_, List.mem_map.mpr ⟨t, ht, rfl⟩, ?_⟩
            rw [(hproj t).1]
            exact hte
          · intro t2 ht2
            obtain ⟨t, ht, hte⟩ := List.mem_map.mp ht2
            rw [← hte, (hproj t).1]
            exact hSeq t ht
          · simp only [TurmaPk, List.map_map]
            have : db.turma.map ((fun t : Turma => t.id_turma) ∘ (fun t =>
                if t.id_turma == id then
                  { t with
                    nome_atividade := n.getD t.nome_atividade,
                    quantidade_vagas := Option.getD none t.quantidade_vagas,
                    turno := tu.getD t.turno,
                    cref := cr.getD t.cref }
                else t)) = db.turma.map (fun t => t.id_turma) :=
              List.map_congr_left (fun t ht => (hproj t).1)
            rw [this]
            exact hPk

/-- `opDeleteTurma` preserves the invariant bundle: the turma disappears
together with exactly its own enrollment rows. -/
theorem inv_delete_turma (db : DB) (k : Nat) (h : InvB db = true) :
    InvB (delete_turma db k) = true := by
  rw [InvB_iff] at h ⊢
  obtain ⟨hCap, hFk, hSeq, hPk⟩ := h
  refine ⟨?_, ?_, ?_, ?_⟩
  · intro t ht
    have hle := enrolledCount_filter_le db (delete_turma db k)
      (fun r => !(r.id_turma == k)) rfl t.id_turma
    have := hCap t (List.mem_of_mem_filter ht)
    have hcast : (enrolledCount (delete_turma db k) t.id_turma : Int) ≤
        (enrolledCount db t.id_turma : Int) := by exact_mod_cast hle
    exact le_trans hcast this
  · intro r hr
    have hrm := List.mem_filter.mp hr
    obtain ⟨t, ht, hte⟩ := hFk r hrm.1
    refine ⟨t, List.mem_filter.mpr ⟨ht, ?_⟩, hte⟩
    rw [hte]
    exact hrm.2
  · intro t ht
    exact hSeq t (List.mem_of_mem_filter ht)
  · have hPk2 : (db.turma.map (fun t => t.id_turma)).Nodup := hPk
    have hsub : ((db.turma.filter (fun t => !(t.id_turma == k))).map
        (fun t => t.id_turma)).Sublist (db.turma.map (fun t => t.id_turma)) :=
      (List.filter_sublist db.turma).map (fun t => t.id_turma)
    exact hsub.nodup hPk2

/-- `opCreateAluno` and `opUpdateAluno` only touch the `aluno` table and
its sequence, so the invariant bundle is untouched. -/
theorem inv_aluno_ops (db : DB) (op : Op)
    (hshape : (∃ cpf nome sexo dn dm cp,
        op = .opCreateAluno cpf nome sexo dn dm cp) ∨
      (∃ m cpf nome sexo dn dm cp,
        op = .opUpdateAluno m cpf nome sexo dn dm cp))
    (h : InvB db = true) : InvB (op.run db) = true := by
  rcases hshape with ⟨cpf, nome, sexo, dn, dm, cp, rfl⟩ |
    ⟨m, cpf, nome, sexo, dn, dm, cp, rfl⟩
  · simp only [Op.run]
    cases hc : create_aluno db cpf nome sexo dn dm cp with
    | error e => exact h
    | ok r =>
      unfold create_aluno at hc
      split at hc
      · cases hc
      · split at hc
        · cases hc
        · split at hc
          · cases hc
          · cases hc
            exact (InvB_proj db _ rfl rfl rfl).trans h
  · simp only [Op.run]
    cases hu : update_aluno db m cpf nome sexo dn dm cp with
    | error e => exact h
    | ok db2 =>
      unfold update_aluno at hu
      split at hu
      · cases hu
        exact h
      · split at hu
        · cases hu
        · split at hu
          · cases hu
          · split at hu
            · cases hu
            · cases hu
              exact (InvB_proj db _ rfl rfl rfl).trans h

/-- `opEnroll` preserves the invariant bundle: every failure leaves the
state unchanged and a success inserts below capacity. -/
theorem inv_enroll (db : DB) (id m : Nat) (h : InvB db = true) :
    InvB (Op.run (.opEnroll id m) db) = true := by
  simp only [Op.run]
  cases hc : create_matricula_turma db id m with
  | error e => exact h
  | ok db2 =>
    unfold create_matricula_turma at hc
    split at hc
    · cases hc
    · rename_i t0 heq
      split at hc
      · cases hc
      · rename_i hgt
        unfold insert_turma_instrutor_aluno at hc
        split at hc
        · cases hc
        · split at hc
          · cases hc
          · split at hc
            · cases hc
            · split at hc
              · cases hc
              · cases hc
                exact inv_insert_tia db id m t0 heq (by omega) h

/-- C1 counterexample base state: one plano and one instrutor, no turmas
or alunos yet — the invariant bundle holds trivially. -/
def dbC1 : DB :=
  { plano := [⟨1, "Basic", 5000, none⟩]
    aluno := []
    contato_aluno := []
    bioimpedancia := []
    instrutor := [⟨10, "33344455566", "Jo", 0, 0, "Manhã"⟩]
    contato_instrutor := []
    turma := []
    turma_instrutor_aluno := []
    aluno_seq := 0
    turma_seq := 0 }

/-- C1 counterexample trace: create a 2-seat turma, create two alunos,
enroll both (legally), then shrink the capacity to 1 via the exposed turma
update. -/
def opsC1 : List Op :=
  [.opCreateTurma "Musculação" 2 "Manhã" 10,
   .opCreateAluno "11111111111" "Ana" "F" 0 0 1,
   .opCreateAluno "22244455566" "Bia" "F" 0 0 1,
   .opEnroll 1 1,
   .opEnroll 1 2,
   .opUpdateTurma 1 none (some 1) none none]

/-- C1 counterexample: from a state satisfying the invariant bundle, a
sequence of exposed operations — ending in a capacity update to a value
below the current enrollment count — reaches a state where a class holds
more enrollments than its declared capacity. -/
theorem c1_counterexample :
    InvB dbC1 = true ∧ capInvB (runOps opsC1 dbC1) = false := by
  constructor <;> decide

/-- C1 (amended): over states satisfying the invariant bundle `InvB` (the
capacity invariant plus the structural facts the store guarantees), every
exposed operation on classes, students and enrollment that does not write
the `quantidade_vagas` column preserves the bundle — in particular the
enrollment count never comes to exceed the capacity — and an enroll against
a class whose count has reached its capacity is rejected with the
no-seats-available error, inserting nothing. Updating a class's capacity
field is the one exposed write that can break the invariant. -/
theorem c1_capacity_amended (db : DB) (h : InvB db = true) :
    (∀ op : Op, op.setsVagas = false → InvB (op.run db) = true) ∧
    (∀ id m t, findTurma db id = some t →
      t.quantidade_vagas ≤ (enrolledCount db id : Int) →
      create_matricula_turma db id m = .error .semVagas) := by
  constructor
  · intro op hop
    cases op with
    | opCreateTurma n v tu cr => exact inv_create_turma db n v tu cr h
    | opUpdateTurma id n v tu cr =>
      cases v with
      | some w => simp [Op.setsVagas] at hop
      | none => exact inv_update_turma_none db id n tu cr h
    | opDeleteTurma id => exact inv_delete_turma db id h
    | opCreateAluno cpf nome sexo dn dm cp =>
      exact inv_aluno_ops db _ (Or.inl ⟨cpf, nome, sexo, dn, dm, cp, rfl⟩) h
    | opUpdateAluno m cpf nome sexo dn dm cp =>
      exact inv_aluno_ops db _
        (Or.inr ⟨m, cpf, nome, sexo, dn, dm, cp, rfl⟩) h
    | opDeleteAluno m =>
      exact inv_of_tia_filter db _ (fun r => !(r.matricula == m)) rfl rfl rfl h
    | opEnroll id m => exact inv_enroll db id m h
    | opUnenroll id m =>
      exact inv_of_tia_filter db _
        (fun r => !(r.id_turma == id && r.matricula == m)) rfl rfl rfl h
  · intro id m t ht hge
    unfold create_matricula_turma
    rw [ht]
    dsimp only
    rw [if_pos hge]

/-- A full one-seat turma on an otherwise intact state, for exercising the
no-seats rejection. -/
def dbC1full : DB :=
  { dbC6 with turma := [⟨1, "Musculação", 1, "Manhã", 10⟩] }

/-- Witness for C1 at concrete states: a legal enroll on `dbW` keeps the
invariant bundle, and an enroll against the full one-seat turma of
`dbC1full` is rejected with the no-seats error. -/
theorem c1_witness :
    InvB (Op.run (.opEnroll 1 1) dbW) = true ∧
    create_matricula_turma dbC1full 1 9 = .error .semVagas :=
  ⟨(c1_capacity_amended dbW (by decide)).1 (.opEnroll 1 1) rfl,
   (c1_capacity_amended dbC1full (by decide)).2 1 9
     ⟨1, "Musculação", 1, "Manhã", 10⟩ (by decide) (by decide)⟩
